import Mathlib

/-!
Verification of the Voice_Agent repository core: the voice-activity /
turn-detection state machine (`src/audio/vad.py`), the turn-orchestration
loop (`src/agent.py` together with `src/audio/recorder.py`), the LLM
fallback logic (`src/services/llm.py`) and the Deepgram response parser
(`src/services/stt.py`), shallowly embedded in Lean.

Conventions of the embedding:
- Python floats (volumes, timestamps, durations, confidences) become `ℚ`.
- Python `None` becomes `Option.none`; `time.time()` is passed in as an
  explicit timestamp argument.
- Python strings become `List Char` (`Str` below), so that every string
  operation the code performs is kernel-computable.
- The volume of a frame (computed in the source by an RMS over the raw
  bytes) is passed in directly: every claim under study quantifies over
  per-frame volumes, matching the spec's separation between the Volume
  Estimator and the Turn Detector.
-/

/-- Python strings, embedded as lists of characters. -/
abbrev Str := List Char

/-- Embedding of `VADConfig` from `src/config/settings.py` (defaults: 0.5, 6.0, 25, 45,
1.0, 3, 5).  Thresholds are `ℚ` since they are compared against the float
volume. -/
structure VADConfig where
  min_endpointing_delay : ℚ
  max_endpointing_delay : ℚ
  silence_threshold : ℚ
  speech_threshold : ℚ
  silence_duration : ℚ
  speech_frame_threshold : ℕ
  silence_frame_threshold : ℕ
deriving DecidableEq, Repr

/-- The default `VADConfig()` instance from `src/config/settings.py`. -/
def defaultVADConfig : VADConfig :=
  { min_endpointing_delay := 1/2
    max_endpointing_delay := 6
    silence_threshold := 25
    speech_threshold := 45
    silence_duration := 1
    speech_frame_threshold := 3
    silence_frame_threshold := 5 }

/-- The mutable state of `VoiceActivityDetector`
(`src/audio/vad.py`, `__init__`): `is_speaking`, `silence_start`,
`speech_start`, and the two consecutive-frame counters. -/
structure DetectorState where
  is_speaking : Bool
  silence_start : Option ℚ
  speech_start : Option ℚ
  consecutive_speech_frames : ℕ
  consecutive_silence_frames : ℕ
deriving DecidableEq, Repr

/-- The state set up by `VoiceActivityDetector.__init__`. -/
def initDetectorState : DetectorState :=
  { is_speaking := false
    silence_start := none
    speech_start := none
    consecutive_speech_frames := 0
    consecutive_silence_frames := 0 }

/-- The spec's `DetectionEvent`: `SpeechStarted` corresponds to the
transition announced at vad.py line 57, `TurnEnded` to the return at
lines 87-93 (carrying the computed silence duration), `nothing` to every
other return. -/
inductive DetectionEvent where
  | nothing : DetectionEvent
  | speechStarted : DetectionEvent
  | turnEnded : ℚ → DetectionEvent
deriving DecidableEq, Repr

/-- Embedding of `VoiceActivityDetector.detect_voice_activity` (vad.py lines 30-124),
as a function of the frame's volume and the current time.  Returns the
updated state together with the detection event of this frame. -/
def detect_voice_activity (cfg : VADConfig) (s : DetectorState)
    (volume t : ℚ) : DetectorState × DetectionEvent :=
  if volume > cfg.speech_threshold then
    -- speech branch, vad.py lines 48-65
    let s1 : DetectorState :=
      { s with consecutive_speech_frames := s.consecutive_speech_frames + 1
               consecutive_silence_frames := 0 }
    if s1.is_speaking = false ∧
        cfg.speech_frame_threshold ≤ s1.consecutive_speech_frames then
      ({ s1 with is_speaking := true
                 speech_start := some t
                 silence_start := none }, .speechStarted)
    else
      (s1, .nothing)
  else if volume < cfg.silence_threshold then
    -- silence branch, vad.py lines 68-111
    let s1 : DetectorState :=
      { s with consecutive_silence_frames := s.consecutive_silence_frames + 1
               consecutive_speech_frames := 0 }
    if s1.is_speaking then
      if cfg.silence_frame_threshold ≤ s1.consecutive_silence_frames then
        let s2 : DetectorState :=
          if s1.silence_start = none then { s1 with silence_start := some t }
          else s1
        let sd : ℚ := t - s2.silence_start.getD 0
        if sd > cfg.silence_duration then
          ({ s2 with is_speaking := false
                     speech_start := none
                     silence_start := none }, .turnEnded sd)
        else
          (s2, .nothing)
      else
        (s1, .nothing)
    else
      (s1, .nothing)
  else
    -- hysteresis band, vad.py lines 114-124
    ({ s with consecutive_speech_frames := 0
              consecutive_silence_frames := 0 }, .nothing)

/-- Embedding of `VoiceActivityDetector.reset` (vad.py lines 126-132). -/
def VoiceActivityDetector.reset (_ : DetectorState) : DetectorState :=
  { is_speaking := false
    silence_start := none
    speech_start := none
    consecutive_speech_frames := 0
    consecutive_silence_frames := 0 }

/-- Feeding a list of `(volume, time)` frames through the detector,
collecting the per-frame events. -/
def runVAD (cfg : VADConfig) (s : DetectorState) :
    List (ℚ × ℚ) → DetectorState × List DetectionEvent
  | [] => (s, [])
  | f :: rest =>
      let o := detect_voice_activity cfg s f.1 f.2
      let r := runVAD cfg o.1 rest
      (r.1, o.2 :: r.2)

theorem runVAD_nil (cfg : VADConfig) (s : DetectorState) :
    runVAD cfg s [] = (s, []) := rfl

theorem runVAD_cons (cfg : VADConfig) (s : DetectorState) (f : ℚ × ℚ)
    (rest : List (ℚ × ℚ)) :
    runVAD cfg s (f :: rest) =
      ((runVAD cfg (detect_voice_activity cfg s f.1 f.2).1 rest).1,
        (detect_voice_activity cfg s f.1 f.2).2 ::
          (runVAD cfg (detect_voice_activity cfg s f.1 f.2).1 rest).2) := rfl

theorem runVAD_append (cfg : VADConfig) (a b : List (ℚ × ℚ)) :
    ∀ s : DetectorState,
      runVAD cfg s (a ++ b) =
        ((runVAD cfg (runVAD cfg s a).1 b).1,
          (runVAD cfg s a).2 ++ (runVAD cfg (runVAD cfg s a).1 b).2) := by
  induction a with
  | nil => intro s; simp [runVAD]
  | cons f rest ih =>
      intro s
      simp only [List.cons_append, runVAD_cons, ih, List.cons_append]

/-- C8: a volume strictly inside the hysteresis band zeroes both
consecutive counters, emits no event, and leaves `is_speaking` (and both
timestamps) unchanged, from every detector state. -/
theorem hysteresis_band_resets_counters (cfg : VADConfig)
    (s : DetectorState) (volume t : ℚ)
    (hlo : cfg.silence_threshold < volume)
    (hhi : volume < cfg.speech_threshold) :
    detect_voice_activity cfg s volume t =
      ({ s with consecutive_speech_frames := 0
                consecutive_silence_frames := 0 }, .nothing) := by
  unfold detect_voice_activity
  rw [if_neg (by exact fun h => absurd hhi (not_lt_of_gt h)),
      if_neg (by exact fun h => absurd hlo (not_lt_of_gt h))]

/-- Witness for C8 at a concrete in-band frame. -/
theorem hysteresis_band_resets_counters_witness :
    (25 : ℚ) < 30 ∧ (30 : ℚ) < 45 ∧
      detect_voice_activity defaultVADConfig
        ⟨true, none, some 1, 2, 0⟩ 30 5 =
        (⟨true, none, some 1, 0, 0⟩, .nothing) := by
  refine ⟨by norm_num, by norm_num, ?_⟩
  exact hysteresis_band_resets_counters defaultVADConfig
    ⟨true, none, some 1, 2, 0⟩ 30 5 (by norm_num [defaultVADConfig])
    (by norm_num [defaultVADConfig])

/-- C9: `reset()` always yields the `Idle` initial state (not speaking,
both counters zero, both timestamps cleared), whatever the prior state,
and doing it twice is the same as doing it once. -/
theorem reset_idle_and_idempotent (s : DetectorState) :
    VoiceActivityDetector.reset s = initDetectorState ∧
      VoiceActivityDetector.reset (VoiceActivityDetector.reset s) =
        VoiceActivityDetector.reset s := ⟨rfl, rfl⟩

/-- The `DetectorState` invariant exactly as the spec states it:
mutually exclusive run-length counters; `is_speaking` implies
`speech_started_at` set; and `silence_started_at` set only while
`is_speaking` and a silence run (nonzero `consecutive_silence_frames`
that has reached `silence_frame_threshold`) is in progress. -/
def specDetectorInvariant (cfg : VADConfig) (s : DetectorState) : Prop :=
  (0 < s.consecutive_speech_frames → s.consecutive_silence_frames = 0) ∧
  (0 < s.consecutive_silence_frames → s.consecutive_speech_frames = 0) ∧
  (s.is_speaking = true → s.speech_start.isSome) ∧
  (s.silence_start.isSome →
     s.is_speaking = true ∧ 0 < s.consecutive_silence_frames ∧
       cfg.silence_frame_threshold ≤ s.consecutive_silence_frames)

instance (cfg : VADConfig) (s : DetectorState) :
    Decidable (specDetectorInvariant cfg s) := by
  unfold specDetectorInvariant; infer_instance

/-- The part of the invariant the code really maintains: the silence-run
conjunct is weakened to `silence_started_at` set only while speaking,
because a loud or in-band frame during a confirmed silence run zeroes
`consecutive_silence_frames` without clearing `silence_start`
(vad.py lines 48-50 and 114-116 never touch `silence_start`). -/
def detectorInvariant (s : DetectorState) : Prop :=
  (0 < s.consecutive_speech_frames → s.consecutive_silence_frames = 0) ∧
  (0 < s.consecutive_silence_frames → s.consecutive_speech_frames = 0) ∧
  (s.is_speaking = true → s.speech_start.isSome) ∧
  (s.silence_start.isSome → s.is_speaking = true)

instance (s : DetectorState) : Decidable (detectorInvariant s) := by
  unfold detectorInvariant; infer_instance

/-- C3 counterexample: from the initial state (which satisfies the spec's
invariant), the default configuration and the nine frames below reach a
state where `silence_start` is still set from the confirmed silence run
although `consecutive_silence_frames` has been zeroed by a loud frame, so
the invariant as the spec states it is not preserved by
`detect_voice_activity`. -/
theorem spec_invariant_not_preserved :
    specDetectorInvariant defaultVADConfig initDetectorState ∧
    (runVAD defaultVADConfig initDetectorState
        [(50, 1), (50, 2), (50, 3), (10, 4), (10, 5), (10, 6), (10, 7),
          (10, 8), (50, 9)]).1 = ⟨true, some 8, some 3, 1, 0⟩ ∧
    ¬ specDetectorInvariant defaultVADConfig ⟨true, some 8, some 3, 1, 0⟩ := by
  refine ⟨by decide, ?_, by decide⟩
  norm_num [runVAD, detect_voice_activity, defaultVADConfig, initDetectorState]

/-- C3 amended: the invariant without the silence-run conjunct holds in
the initial state, is preserved by every call to
`detect_voice_activity`, and is preserved (re-established) by `reset`:
the counters are mutually exclusive, `is_speaking` implies
`speech_start` is set, and `silence_start` is set only while
`is_speaking`. -/
theorem detector_invariant_preserved :
    detectorInvariant initDetectorState ∧
    (∀ (cfg : VADConfig) (s : DetectorState) (v t : ℚ),
        detectorInvariant s →
          detectorInvariant (detect_voice_activity cfg s v t).1) ∧
    (∀ s : DetectorState,
        detectorInvariant (VoiceActivityDetector.reset s)) := by
  refine ⟨by decide, ?_, fun s => by
    unfold VoiceActivityDetector.reset detectorInvariant; simp⟩
  intro cfg s v t h
  obtain ⟨h1, h2, h3, h4⟩ := h
  unfold detect_voice_activity
  dsimp only
  split_ifs with hv hs hw hth hnil hsd hsd' hw'
  all_goals
    refine ⟨?_, ?_, ?_, ?_⟩ <;> simp_all

/-- Witness for C3 (amended): the invariant transported across one
concrete call. -/
theorem detector_invariant_preserved_witness :
    detectorInvariant
      (detect_voice_activity defaultVADConfig initDetectorState 50 1).1 :=
  detector_invariant_preserved.2.1 defaultVADConfig initDetectorState 50 1
    (by decide)

/-! Per-branch characterisations of `detect_voice_activity`, used to
settle the debouncing claims about speech onset and turn end. -/

theorem dva_speech_noStart (cfg : VADConfig) (s : DetectorState) (v t : ℚ)
    (hv : cfg.speech_threshold < v)
    (hc : ¬(s.is_speaking = false ∧
        cfg.speech_frame_threshold ≤ s.consecutive_speech_frames + 1)) :
    detect_voice_activity cfg s v t =
      (⟨s.is_speaking, s.silence_start, s.speech_start,
        s.consecutive_speech_frames + 1, 0⟩, .nothing) := by
  unfold detect_voice_activity
  dsimp only
  rw [if_pos hv, if_neg hc]

theorem dva_speech_start (cfg : VADConfig) (s : DetectorState) (v t : ℚ)
    (hv : cfg.speech_threshold < v)
    (hns : s.is_speaking = false)
    (hk : cfg.speech_frame_threshold ≤ s.consecutive_speech_frames + 1) :
    detect_voice_activity cfg s v t =
      (⟨true, none, some t, s.consecutive_speech_frames + 1, 0⟩,
        .speechStarted) := by
  unfold detect_voice_activity
  dsimp only
  rw [if_pos hv, if_pos ⟨hns, hk⟩]

theorem dva_sil_notspeaking (cfg : VADConfig) (s : DetectorState) (v t : ℚ)
    (hnv : ¬ cfg.speech_threshold < v)
    (hv : v < cfg.silence_threshold)
    (hns : s.is_speaking = false) :
    detect_voice_activity cfg s v t =
      (⟨s.is_speaking, s.silence_start, s.speech_start, 0,
        s.consecutive_silence_frames + 1⟩, .nothing) := by
  unfold detect_voice_activity
  dsimp only
  rw [if_neg hnv, if_pos hv, if_neg (by simp [hns])]

theorem dva_sil_below (cfg : VADConfig) (s : DetectorState) (v t : ℚ)
    (hnv : ¬ cfg.speech_threshold < v)
    (hv : v < cfg.silence_threshold)
    (hsp : s.is_speaking = true)
    (hth : ¬ cfg.silence_frame_threshold ≤ s.consecutive_silence_frames + 1) :
    detect_voice_activity cfg s v t =
      (⟨s.is_speaking, s.silence_start, s.speech_start, 0,
        s.consecutive_silence_frames + 1⟩, .nothing) := by
  unfold detect_voice_activity
  dsimp only
  rw [if_neg hnv, if_pos hv, if_pos (by simp [hsp]), if_neg hth]

theorem dva_sil_confirm (cfg : VADConfig) (s : DetectorState) (v t : ℚ)
    (hnv : ¬ cfg.speech_threshold < v)
    (hv : v < cfg.silence_threshold)
    (hsp : s.is_speaking = true)
    (hth : cfg.silence_frame_threshold ≤ s.consecutive_silence_frames + 1)
    (hnone : s.silence_start = none)
    (hdur : ¬ t - t > cfg.silence_duration) :
    detect_voice_activity cfg s v t =
      (⟨true, some t, s.speech_start, 0,
        s.consecutive_silence_frames + 1⟩, .nothing) := by
  unfold detect_voice_activity
  dsimp only
  split_ifs <;> simp_all <;> linarith

theorem dva_sil_wait (cfg : VADConfig) (s : DetectorState) (v t tc : ℚ)
    (hnv : ¬ cfg.speech_threshold < v)
    (hv : v < cfg.silence_threshold)
    (hsp : s.is_speaking = true)
    (hth : cfg.silence_frame_threshold ≤ s.consecutive_silence_frames + 1)
    (hsome : s.silence_start = some tc)
    (hdur : ¬ t - tc > cfg.silence_duration) :
    detect_voice_activity cfg s v t =
      (⟨true, some tc, s.speech_start, 0,
        s.consecutive_silence_frames + 1⟩, .nothing) := by
  unfold detect_voice_activity
  dsimp only
  split_ifs <;> simp_all <;> linarith

theorem dva_sil_end (cfg : VADConfig) (s : DetectorState) (v t tc : ℚ)
    (hnv : ¬ cfg.speech_threshold < v)
    (hv : v < cfg.silence_threshold)
    (hsp : s.is_speaking = true)
    (hth : cfg.silence_frame_threshold ≤ s.consecutive_silence_frames + 1)
    (hsome : s.silence_start = some tc)
    (hdur : t - tc > cfg.silence_duration) :
    detect_voice_activity cfg s v t =
      (⟨false, none, none, 0, s.consecutive_silence_frames + 1⟩,
        .turnEnded (t - tc)) := by
  unfold detect_voice_activity
  dsimp only
  split_ifs <;> simp_all

theorem run_speech_noStart (cfg : VADConfig) :
    ∀ (frames : List (ℚ × ℚ)) (s : DetectorState),
      s.is_speaking = false →
      (∀ p ∈ frames, cfg.speech_threshold < p.1) →
      s.consecutive_speech_frames + frames.length <
          cfg.speech_frame_threshold →
      runVAD cfg s frames =
        (⟨false, s.silence_start, s.speech_start,
            s.consecutive_speech_frames + frames.length,
            if frames.length = 0 then s.consecutive_silence_frames else 0⟩,
          List.replicate frames.length .nothing) := by
  intro frames
  induction frames with
  | nil =>
      intro s hns hall hlt
      cases s
      simp_all [runVAD]
  | cons f rest ih =>
      intro s hns hall hlt
      simp only [List.length_cons] at hlt
      rw [runVAD_cons,
        dva_speech_noStart cfg s f.1 f.2 (hall f (by simp))
          (by intro hc; have h2 := hc.2; omega)]
      dsimp only
      rw [ih ⟨s.is_speaking, s.silence_start, s.speech_start,
            s.consecutive_speech_frames + 1, 0⟩ hns
          (fun p hp => hall p (by simp [hp])) (by dsimp only; omega)]
      simp only [Prod.mk.injEq, DetectorState.mk.injEq, List.length_cons]
      refine ⟨⟨trivial, trivial, trivial, by omega, by simp⟩, by simp [List.replicate_succ]⟩

theorem run_speech_speaking (cfg : VADConfig) :
    ∀ (frames : List (ℚ × ℚ)) (s : DetectorState),
      s.is_speaking = true →
      (∀ p ∈ frames, cfg.speech_threshold < p.1) →
      runVAD cfg s frames =
        (⟨true, s.silence_start, s.speech_start,
            s.consecutive_speech_frames + frames.length,
            if frames.length = 0 then s.consecutive_silence_frames else 0⟩,
          List.replicate frames.length .nothing) := by
  intro frames
  induction frames with
  | nil =>
      intro s hsp hall
      cases s
      simp_all [runVAD]
  | cons f rest ih =>
      intro s hsp hall
      rw [runVAD_cons,
        dva_speech_noStart cfg s f.1 f.2 (hall f (by simp))
          (fun hc => by rw [hsp] at hc; exact absurd hc.1 (by simp))]
      dsimp only
      rw [ih ⟨s.is_speaking, s.silence_start, s.speech_start,
            s.consecutive_speech_frames + 1, 0⟩ hsp
          (fun p hp => hall p (by simp [hp]))]
      simp only [Prod.mk.injEq, DetectorState.mk.injEq, List.length_cons]
      refine ⟨⟨trivial, trivial, trivial, by omega, by simp⟩,
        by simp [List.replicate_succ]⟩

theorem run_sil_notspeaking (cfg : VADConfig)
    (hord : cfg.silence_threshold ≤ cfg.speech_threshold) :
    ∀ (frames : List (ℚ × ℚ)) (s : DetectorState),
      s.is_speaking = false →
      (∀ p ∈ frames, p.1 < cfg.silence_threshold) →
      runVAD cfg s frames =
        (⟨false, s.silence_start, s.speech_start,
            if frames.length = 0 then s.consecutive_speech_frames else 0,
            s.consecutive_silence_frames + frames.length⟩,
          List.replicate frames.length .nothing) := by
  intro frames
  induction frames with
  | nil =>
      intro s hns hall
      cases s
      simp_all [runVAD]
  | cons f rest ih =>
      intro s hns hall
      rw [runVAD_cons,
        dva_sil_notspeaking cfg s f.1 f.2
          (by have := hall f (by simp); intro hv; linarith)
          (hall f (by simp)) hns]
      dsimp only
      rw [ih ⟨s.is_speaking, s.silence_start, s.speech_start, 0,
            s.consecutive_silence_frames + 1⟩ hns
          (fun p hp => hall p (by simp [hp]))]
      simp only [Prod.mk.injEq, DetectorState.mk.injEq, List.length_cons]
      refine ⟨⟨trivial, trivial, trivial, by simp, by omega⟩,
        by simp [List.replicate_succ]⟩

theorem run_sil_below (cfg : VADConfig)
    (hord : cfg.silence_threshold ≤ cfg.speech_threshold) :
    ∀ (frames : List (ℚ × ℚ)) (s : DetectorState),
      s.is_speaking = true →
      (∀ p ∈ frames, p.1 < cfg.silence_threshold) →
      s.consecutive_silence_frames + frames.length <
          cfg.silence_frame_threshold →
      runVAD cfg s frames =
        (⟨true, s.silence_start, s.speech_start,
            if frames.length = 0 then s.consecutive_speech_frames else 0,
            s.consecutive_silence_frames + frames.length⟩,
          List.replicate frames.length .nothing) := by
  intro frames
  induction frames with
  | nil =>
      intro s hsp hall hlt
      cases s
      simp_all [runVAD]
  | cons f rest ih =>
      intro s hsp hall hlt
      simp only [List.length_cons] at hlt
      rw [runVAD_cons,
        dva_sil_below cfg s f.1 f.2
          (by have := hall f (by simp); intro hv; linarith)
          (hall f (by simp)) hsp (by omega)]
      dsimp only
      rw [ih ⟨s.is_speaking, s.silence_start, s.speech_start, 0,
            s.consecutive_silence_frames + 1⟩ hsp
          (fun p hp => hall p (by simp [hp])) (by dsimp only; omega)]
      simp only [Prod.mk.injEq, DetectorState.mk.injEq, List.length_cons]
      refine ⟨⟨by simp [hsp], trivial, trivial, by simp, by omega⟩,
        by simp [List.replicate_succ]⟩

theorem run_sil_wait (cfg : VADConfig)
    (hord : cfg.silence_threshold ≤ cfg.speech_threshold) :
    ∀ (frames : List (ℚ × ℚ)) (s : DetectorState) (tc : ℚ),
      s.is_speaking = true →
      s.silence_start = some tc →
      cfg.silence_frame_threshold ≤ s.consecutive_silence_frames →
      (∀ p ∈ frames, p.1 < cfg.silence_threshold ∧
          p.2 - tc ≤ cfg.silence_duration) →
      runVAD cfg s frames =
        (⟨true, some tc, s.speech_start,
            if frames.length = 0 then s.consecutive_speech_frames else 0,
            s.consecutive_silence_frames + frames.length⟩,
          List.replicate frames.length .nothing) := by
  intro frames
  induction frames with
  | nil =>
      intro s tc hsp hss hth hall
      cases s
      simp_all [runVAD]
  | cons f rest ih =>
      intro s tc hsp hss hth hall
      rw [runVAD_cons,
        dva_sil_wait cfg s f.1 f.2 tc
          (by have := (hall f (by simp)).1; intro hv; linarith)
          ((hall f (by simp)).1) hsp (by omega) hss
          (by have := (hall f (by simp)).2; linarith)]
      dsimp only
      rw [ih ⟨true, some tc, s.speech_start, 0,
            s.consecutive_silence_frames + 1⟩ tc rfl rfl (by dsimp only; omega)
          (fun p hp => hall p (by simp [hp]))]
      simp only [Prod.mk.injEq, DetectorState.mk.injEq, List.length_cons]
      refine ⟨⟨trivial, trivial, trivial, by simp, by omega⟩,
        by simp [List.replicate_succ]⟩

/-- C1: from any non-speaking state with a zeroed speech counter, a run of
at least `speech_frame_threshold` frames all strictly above
`speech_threshold` emits exactly one `SpeechStarted`, at the frame where
the consecutive-speech counter first reaches the threshold; at that frame
`is_speaking` becomes true, `speech_start` is set to that frame's time and
`silence_start` is cleared. -/
theorem speech_started_exactly_once (cfg : VADConfig) (s : DetectorState)
    (pre post : List (ℚ × ℚ)) (fk : ℚ × ℚ)
    (hk : 1 ≤ cfg.speech_frame_threshold)
    (hlen : pre.length = cfg.speech_frame_threshold - 1)
    (hpre : ∀ p ∈ pre, cfg.speech_threshold < p.1)
    (hfk : cfg.speech_threshold < fk.1)
    (hpost : ∀ p ∈ post, cfg.speech_threshold < p.1)
    (hns : s.is_speaking = false)
    (hcsf : s.consecutive_speech_frames = 0) :
    (runVAD cfg s (pre ++ fk :: post)).2 =
      List.replicate (cfg.speech_frame_threshold - 1) .nothing ++
        .speechStarted :: List.replicate post.length .nothing ∧
    (runVAD cfg s (pre ++ [fk])).1 =
      ⟨true, none, some fk.2, cfg.speech_frame_threshold, 0⟩ := by
  have e1 := run_speech_noStart cfg pre s hns hpre (by omega)
  constructor
  · rw [runVAD_append, e1]
    dsimp only
    rw [runVAD_cons,
      dva_speech_start cfg _ fk.1 fk.2 hfk rfl (by dsimp only; omega)]
    dsimp only
    rw [run_speech_speaking cfg post _ rfl hpost]
    rw [hlen]
  · rw [runVAD_append, e1]
    dsimp only
    rw [runVAD_cons,
      dva_speech_start cfg _ fk.1 fk.2 hfk rfl (by dsimp only; omega)]
    simp only [runVAD_nil, DetectorState.mk.injEq]
    refine ⟨trivial, trivial, trivial, by omega, trivial⟩

/-- C2: once speaking (with no silence run pending), a run of at least
`silence_frame_threshold` frames all strictly below `silence_threshold`,
followed by a frame whose elapsed time since the confirming frame strictly
exceeds `silence_duration`, emits exactly one `TurnEnded`, carrying
exactly that elapsed silence; immediately after that frame `is_speaking`
is false and both timestamps are cleared. -/
theorem turn_ended_exactly_once (cfg : VADConfig) (s : DetectorState)
    (pre mid post : List (ℚ × ℚ)) (confirm endf : ℚ × ℚ)
    (hk : 1 ≤ cfg.silence_frame_threshold)
    (hord : cfg.silence_threshold ≤ cfg.speech_threshold)
    (hdur : 0 ≤ cfg.silence_duration)
    (hlen : pre.length = cfg.silence_frame_threshold - 1)
    (hpre : ∀ p ∈ pre, p.1 < cfg.silence_threshold)
    (hconf : confirm.1 < cfg.silence_threshold)
    (hmid : ∀ p ∈ mid, p.1 < cfg.silence_threshold ∧
        p.2 - confirm.2 ≤ cfg.silence_duration)
    (hendv : endf.1 < cfg.silence_threshold)
    (hendt : cfg.silence_duration < endf.2 - confirm.2)
    (hpost : ∀ p ∈ post, p.1 < cfg.silence_threshold)
    (hsp : s.is_speaking = true)
    (hss : s.silence_start = none)
    (hcssf : s.consecutive_silence_frames = 0) :
    (runVAD cfg s (pre ++ confirm :: (mid ++ endf :: post))).2 =
      List.replicate (cfg.silence_frame_threshold + mid.length) .nothing ++
        .turnEnded (endf.2 - confirm.2) ::
          List.replicate post.length .nothing ∧
    (runVAD cfg s (pre ++ confirm :: (mid ++ [endf]))).1 =
      ⟨false, none, none, 0,
        cfg.silence_frame_threshold + mid.length + 1⟩ := by
  obtain ⟨is0, sil0, sp0, c0, d0⟩ := s
  dsimp only at hsp hss hcssf
  subst hsp
  subst hss
  subst hcssf
  have hnotdur : ¬ confirm.2 - confirm.2 > cfg.silence_duration := by
    rw [sub_self]; exact not_lt.mpr hdur
  have e1 := run_sil_below cfg hord pre ⟨true, none, sp0, c0, 0⟩ rfl hpre
      (by dsimp only; omega)
  simp only [Nat.zero_add] at e1
  have e2 := dva_sil_confirm cfg
      ⟨true, none, sp0, if pre.length = 0 then c0 else 0, pre.length⟩
      confirm.1 confirm.2 (fun hv => absurd hconf (by intro h; linarith))
      hconf rfl (by dsimp only; omega) rfl hnotdur
  try dsimp only at e2
  have e3 := run_sil_wait cfg hord mid
      ⟨true, some confirm.2, sp0, 0, pre.length + 1⟩ confirm.2 rfl rfl
      (by dsimp only; omega) hmid
  simp only [ite_self] at e3
  try dsimp only at e3
  have e4 := dva_sil_end cfg
      ⟨true, some confirm.2, sp0, 0, pre.length + 1 + mid.length⟩
      endf.1 endf.2 confirm.2 (fun hv => absurd hendv (by intro h; linarith))
      hendv rfl (by dsimp only; omega) rfl hendt
  try dsimp only at e4
  have eMain :
      runVAD cfg ⟨true, none, sp0, c0, 0⟩ (pre ++ confirm :: (mid ++ [endf])) =
        (⟨false, none, none, 0, pre.length + 1 + mid.length + 1⟩,
          List.replicate pre.length .nothing ++
            .nothing :: (List.replicate mid.length .nothing ++
              [.turnEnded (endf.2 - confirm.2)])) := by
    rw [runVAD_append, e1]
    dsimp only
    rw [runVAD_cons, e2]
    dsimp only
    rw [runVAD_append, e3]
    dsimp only
    rw [runVAD_cons, e4, runVAD_nil]
  have hsplit : pre ++ confirm :: (mid ++ endf :: post) =
      (pre ++ confirm :: (mid ++ [endf])) ++ post := by
    simp [List.append_assoc]
  constructor
  · rw [hsplit, runVAD_append, eMain]
    dsimp only
    rw [run_sil_notspeaking cfg hord post _ rfl hpost]
    dsimp only
    rw [show cfg.silence_frame_threshold + mid.length =
        pre.length + (mid.length + 1) by omega,
      List.replicate_add, List.replicate_succ]
    simp [List.append_assoc, List.replicate_succ]
  · rw [eMain]
    simp only [DetectorState.mk.injEq]
    refine ⟨trivial, trivial, trivial, trivial, by omega⟩

/-- Witness for C1 with the default configuration: two confirming frames,
the firing frame, and one extra speech frame. -/
theorem speech_started_exactly_once_witness :
    (runVAD defaultVADConfig initDetectorState
        [(50, 1), (50, 2), (50, 3), (50, 4)]).2 =
      List.replicate 2 .nothing ++
        .speechStarted :: List.replicate 1 .nothing ∧
    (runVAD defaultVADConfig initDetectorState [(50, 1), (50, 2), (50, 3)]).1 =
      ⟨true, none, some 3, 3, 0⟩ :=
  speech_started_exactly_once defaultVADConfig initDetectorState
    [(50, 1), (50, 2)] [(50, 4)] (50, 3) (by decide) (by decide)
    (by norm_num [List.forall_mem_cons, defaultVADConfig]) (by decide)
    (by norm_num [List.forall_mem_cons, defaultVADConfig]) rfl rfl

/-- Witness for C2 with the default configuration: from a speaking state,
four sub-threshold frames, the confirming fifth, one waiting frame, the
frame that crosses the 1.0 s silence budget, and one trailing frame. -/
theorem turn_ended_exactly_once_witness :
    (runVAD defaultVADConfig ⟨true, none, some 0, 3, 0⟩
        [(10, 1), (10, 2), (10, 3), (10, 4), (10, 5), (10, 6), (10, 7),
          (10, 8)]).2 =
      List.replicate 6 .nothing ++
        .turnEnded (7 - 5) :: List.replicate 1 .nothing ∧
    (runVAD defaultVADConfig ⟨true, none, some 0, 3, 0⟩
        [(10, 1), (10, 2), (10, 3), (10, 4), (10, 5), (10, 6), (10, 7)]).1 =
      ⟨false, none, none, 0, 7⟩ :=
  turn_ended_exactly_once defaultVADConfig ⟨true, none, some 0, 3, 0⟩
    [(10, 1), (10, 2), (10, 3), (10, 4)] [(10, 6)] [(10, 8)] (10, 5) (10, 7)
    (by decide) (by decide) (by decide) (by decide)
    (by norm_num [List.forall_mem_cons, defaultVADConfig]) (by decide)
    (by norm_num [List.forall_mem_cons, defaultVADConfig]) (by decide)
    (by norm_num [defaultVADConfig])
    (by norm_num [List.forall_mem_cons, defaultVADConfig]) rfl rfl rfl

/-- Is an event a `TurnEnded`? -/
def DetectionEvent.isTurnEnd : DetectionEvent → Bool
  | .turnEnded _ => true
  | _ => false

/-- The spec's scenario input: volumes
`[10,10,50,50,50,10,10,10,10,10,10,10,10,10,10]` with one frame every
100 ms (frame `i` at time `i/10`). -/
def scenarioFrames : List (ℚ × ℚ) :=
  [(10, 1/10), (10, 2/10), (50, 3/10), (50, 4/10), (50, 5/10),
   (10, 6/10), (10, 7/10), (10, 8/10), (10, 9/10), (10, 1),
   (10, 11/10), (10, 12/10), (10, 13/10), (10, 14/10), (10, 3/2)]

/-- The scenario input continued at 100 ms per frame with six more silent
frames (times 1.6 s … 2.1 s). -/
def scenarioFramesExtended : List (ℚ × ℚ) :=
  scenarioFrames ++
    [(10, 8/5), (10, 17/10), (10, 9/5), (10, 19/10), (10, 2), (10, 21/10)]

/-- C7 counterexample: on the exact 15-frame scenario, `SpeechStarted` is
emitted at the 5th frame as claimed, but no `TurnEnded` at all is emitted
within the sequence: the silence run is only confirmed at the 10th frame
(time 1.0 s), so by the 15th frame (time 1.5 s) the elapsed silence is
0.5 s, not more than `silence_duration = 1.0 s`. -/
theorem scenario_no_turn_ended_within_sequence :
    (runVAD defaultVADConfig initDetectorState scenarioFrames).2 =
      List.replicate 4 .nothing ++
        .speechStarted :: List.replicate 10 .nothing ∧
    List.countP DetectionEvent.isTurnEnd
      (runVAD defaultVADConfig initDetectorState scenarioFrames).2 = 0 := by
  have h : (runVAD defaultVADConfig initDetectorState scenarioFrames).2 =
      List.replicate 4 .nothing ++
        .speechStarted :: List.replicate 10 .nothing := by
    norm_num [scenarioFrames, runVAD, detect_voice_activity,
      defaultVADConfig, initDetectorState, Option.some_ne_none]
    rfl
  exact ⟨h, by rw [h]; decide⟩

set_option maxRecDepth 8000 in
/-- C7 amended: `SpeechStarted` is emitted at the 5th frame; no
`TurnEnded` occurs within the 15 listed frames; continuing the silence at
100 ms per frame, exactly one `TurnEnded` is emitted at the 21st frame,
the first whose elapsed silence since the confirming 10th frame
(1.1 s) exceeds `silence_duration = 1.0 s`. -/
theorem scenario_turn_ended_on_extension :
    (runVAD defaultVADConfig initDetectorState scenarioFrames).2 =
      List.replicate 4 .nothing ++
        .speechStarted :: List.replicate 10 .nothing ∧
    (runVAD defaultVADConfig initDetectorState scenarioFramesExtended).2 =
      List.replicate 4 .nothing ++ .speechStarted ::
        (List.replicate 15 .nothing ++ [.turnEnded (11/10)]) ∧
    List.countP DetectionEvent.isTurnEnd
      (runVAD defaultVADConfig initDetectorState
        scenarioFramesExtended).2 = 1 := by
  have h1 : (runVAD defaultVADConfig initDetectorState scenarioFrames).2 =
      List.replicate 4 .nothing ++
        .speechStarted :: List.replicate 10 .nothing := by
    norm_num [scenarioFrames, runVAD, detect_voice_activity,
      defaultVADConfig, initDetectorState, Option.some_ne_none]
    rfl
  have h2 : (runVAD defaultVADConfig initDetectorState
        scenarioFramesExtended).2 =
      List.replicate 4 .nothing ++ .speechStarted ::
        (List.replicate 15 .nothing ++ [.turnEnded (11/10)]) := by
    norm_num [scenarioFramesExtended, scenarioFrames, runVAD,
      detect_voice_activity, defaultVADConfig, initDetectorState,
      Option.some_ne_none]
    rfl
  exact ⟨h1, h2, by rw [h2]; decide⟩

/-! The turn-orchestration loop of `src/agent.py` together with the
recorder buffer of `src/audio/recorder.py`, and the per-turn pipeline
with its error policy (`src/services/stt.py`, `src/services/llm.py`). -/

/-- One raw audio chunk (the bytes of one `stream.read`,
recorder.py line 56), abstracted as a list of byte values. -/
abbrev AudioChunk := List ℕ

/-- The recorder's mutable state: `audio_buffer` (recorder.py line 26). -/
structure RecorderState where
  audio_buffer : List AudioChunk
deriving DecidableEq, Repr

/-- Embedding of `AudioRecorder.record_chunk` (recorder.py lines 45-61): the chunk is
appended to `audio_buffer` and returned. -/
def AudioRecorder.record_chunk (r : RecorderState) (data : AudioChunk) :
    RecorderState :=
  { audio_buffer := r.audio_buffer ++ [data] }

/-- The WAV payload written by `AudioRecorder.save_audio`
(recorder.py line 79): `b''.join(self.audio_buffer)`. -/
def AudioRecorder.save_audio (r : RecorderState) : List ℕ :=
  r.audio_buffer.flatten

/-- Embedding of `AudioRecorder.clear_buffer` (recorder.py lines 94-96).  No caller in
the repository ever invokes it. -/
def AudioRecorder.clear_buffer (_ : RecorderState) : RecorderState :=
  { audio_buffer := [] }

/-- The loop state of `VoiceAgent._run_continuous_loop`
(agent.py lines 121-150): the detector state, the recorder buffer and
`current_turn_start`. -/
structure AgentLoopState where
  vad : DetectorState
  recorder : RecorderState
  current_turn_start : Option ℚ
deriving DecidableEq, Repr

/-- The loop state at `start_recording` time: empty buffer, fresh
detector, no active turn. -/
def initAgentLoopState : AgentLoopState :=
  { vad := initDetectorState
    recorder := { audio_buffer := [] }
    current_turn_start := none }

/-- One iteration of `VoiceAgent._run_continuous_loop` (agent.py lines
126-150): record a chunk (appending it to the recorder buffer), run the
detector, start a turn when speaking with no active turn (line 139), and
when the detector reports `turn_ended` with an active turn (line 145)
process the turn: the audio handed to transcription is `save_audio`, the
join of the entire buffer (agent.py line 182) — the loop never calls
`clear_buffer`.  Returns the new state and the audio handed to the
transcription stage when a turn was processed. -/
def loopIteration (cfg : VADConfig) (st : AgentLoopState)
    (chunk : AudioChunk) (volume t : ℚ) :
    AgentLoopState × Option (List ℕ) :=
  let rec1 := AudioRecorder.record_chunk st.recorder chunk
  let o := detect_voice_activity cfg st.vad volume t
  let turnStart : Option ℚ :=
    if o.1.is_speaking = true ∧ st.current_turn_start = none then some t
    else st.current_turn_start
  if o.2.isTurnEnd = true ∧ turnStart ≠ none then
    ({ vad := o.1, recorder := rec1, current_turn_start := none },
      some (AudioRecorder.save_audio rec1))
  else
    ({ vad := o.1, recorder := rec1, current_turn_start := turnStart },
      none)

/-- Iterating the loop over a list of `(chunk, volume, time)` inputs,
collecting the audio handed to transcription for each processed turn. -/
def runLoop (cfg : VADConfig) :
    AgentLoopState → List (AudioChunk × ℚ × ℚ) →
      AgentLoopState × List (List ℕ)
  | st, [] => (st, [])
  | st, (c, v, t) :: rest =>
      let o := loopIteration cfg st c v t
      let r := runLoop cfg o.1 rest
      (r.1, o.2.toList ++ r.2)

/-- A configuration with one-frame debouncing and a zero silence budget,
used to drive two back-to-back turns in few frames. -/
def minimalVADConfig : VADConfig :=
  { min_endpointing_delay := 1/2
    max_endpointing_delay := 6
    silence_threshold := 25
    speech_threshold := 45
    silence_duration := 0
    speech_frame_threshold := 1
    silence_frame_threshold := 1 }

/-- C4: evaluation of the orchestration loop on two back-to-back turns
(chunks `[1],…,[6]`).  The first turn hands `[1,2,3]` to transcription;
the second hands `[1,2,3,4,5,6]` — the first turn's frames included —
because the buffer is never cleared between turns (`clear_buffer` is
dead code), contradicting the claim that each turn's audio consists only
of frames accumulated for that turn. -/
theorem turn_buffer_accumulates_across_turns :
    (runLoop minimalVADConfig initAgentLoopState
        [([1], 50, 1), ([2], 10, 2), ([3], 10, 3),
         ([4], 50, 4), ([5], 10, 5), ([6], 10, 6)]).2 =
      [[1, 2, 3], [1, 2, 3, 4, 5, 6]] := by
  norm_num [runLoop, loopIteration, detect_voice_activity,
    AudioRecorder.record_chunk, AudioRecorder.save_audio,
    minimalVADConfig, initAgentLoopState, initDetectorState,
    DetectionEvent.isTurnEnd, Option.some_ne_none]

/-- Python `str.lower()` on the embedded strings (the keyword lists the
code lowers against are pure ASCII). -/
def pyLower (s : Str) : Str := s.map Char.toLower

/-- Python `needle in hay` on strings: contiguous-substring test. -/
def pyIn (needle hay : Str) : Bool := decide (needle <:+: hay)

/-- Embedding of the fallback generator of llm.py lines 71-100:
deterministic keyword-matched canned replies; the `"?"` test is against
the original, un-lowered input (llm.py line 96). -/
def generate_fallback_response (user_input : Str) : Str :=
  let lower := pyLower user_input
  if pyIn "hello".toList lower || pyIn "hi".toList lower ||
      pyIn "hey".toList lower then
    "Hello! How can I help you today?".toList
  else if pyIn "how are you".toList lower ||
      pyIn "how do you do".toList lower then
    "I\x27m doing well, thank you for asking! How can I assist you?".toList
  else if pyIn "bye".toList lower || pyIn "goodbye".toList lower ||
      pyIn "see you".toList lower then
    "Goodbye! Have a great day!".toList
  else if pyIn "thank you".toList lower || pyIn "thanks".toList lower then
    "You\x27re welcome! Is there anything else I can help you with?".toList
  else if pyIn "?".toList user_input then
    "That\x27s an interesting question. Let me think about that for a moment.".toList
  else
    "I understand what you\x27re saying. Could you tell me more about that?".toList

/-- The behaviour of the OpenAI call inside
`LLMService.generate_response` for one turn: either it returns a reply
or it raises. -/
inductive LLMBackend where
  | ok : Str → LLMBackend
  | failure : LLMBackend
deriving DecidableEq, Repr

/-- Embedding of `LLMService.generate_response` (llm.py lines 25-69): with no API key
the fallback is returned directly (line 36); a successful call returns
the reply; an exception is caught and the fallback substituted
(lines 67-69) — the failure is only printed, nothing else records it. -/
def LLMService.generate_response (hasKey : Bool) (backend : LLMBackend)
    (user_input : Str) : Str :=
  if hasKey = false then generate_fallback_response user_input
  else
    match backend with
    | .ok reply => reply
    | .failure => generate_fallback_response user_input

/-- The transcription-result dictionary as read by
`VoiceAgent._process_turn` (missing keys read as `none`). -/
structure STTResultDict where
  success : Bool
  final_transcript : Option Str
  final_confidence : Option ℚ
  error : Option Str
deriving DecidableEq, Repr

/-- What one `_process_turn` call did: which stages ran, the text handed
to synthesis, and the turn-record fields recorded via the metrics
collector (`record_stt_end`, `record_llm_end`, `end_turn`). -/
structure TurnOutcome where
  llm_invoked : Bool
  tts_invoked : Bool
  tts_input : Option Str
  recorded_transcript : Str
  recorded_confidence : ℚ
  recorded_response : Option Str
  end_success : Bool
  end_error : Str
deriving DecidableEq, Repr

/-- Embedding of the turn processor of agent.py lines 171-225, for one
completed turn, as a function of the transcription result and the
LLM/TTS stage behaviour.  Lines 192-196: if the result is unsuccessful
or the transcript is empty/missing, `end_turn(success=False,
error="No speech detected")` is called and LLM/TTS are skipped.
Otherwise LLM runs (line 206), TTS runs on its reply (line 211), and
`end_turn(success=tts_success)` is called (line 218) with the default
empty error. -/
def VoiceAgent.process_turn (stt : STTResultDict) (hasKey : Bool)
    (backend : LLMBackend) (tts_success : Bool) : TurnOutcome :=
  let transcript0 := stt.final_transcript.getD []
  let confidence0 := stt.final_confidence.getD 0
  if stt.success = false ∨ transcript0 = [] then
    { llm_invoked := false
      tts_invoked := false
      tts_input := none
      recorded_transcript := transcript0
      recorded_confidence := confidence0
      recorded_response := none
      end_success := false
      end_error := "No speech detected".toList }
  else
    let response := LLMService.generate_response hasKey backend transcript0
    { llm_invoked := true
      tts_invoked := true
      tts_input := some response
      recorded_transcript := transcript0
      recorded_confidence := confidence0
      recorded_response := some response
      end_success := tts_success
      end_error := [] }

/-- The loop processes completed turns one after another; a failed turn
does not stop the processing of later turns. -/
def VoiceAgent.process_turns
    (turns : List (STTResultDict × Bool × LLMBackend × Bool)) :
    List TurnOutcome :=
  turns.map fun x => VoiceAgent.process_turn x.1 x.2.1 x.2.2.1 x.2.2.2

/-- Value of `TurnDetectionConfig.confidence_threshold` (settings.py line 36) —
defined in the configuration but never consulted by `_process_turn`. -/
def confidence_threshold_default : ℚ := 7/10

/-- C5 amended: whenever transcription is unsuccessful or yields an
empty (or missing) transcript, the turn is recorded as failed with error
"No speech detected", the reply and synthesis stages are never invoked,
and the loop goes on to process the remaining turns.  (The configured
confidence floor plays no role: see the counterexample.) -/
theorem no_usable_transcript_short_circuits (stt : STTResultDict)
    (hasKey : Bool) (backend : LLMBackend) (tts : Bool)
    (h : stt.success = false ∨ stt.final_transcript.getD [] = []) :
    (VoiceAgent.process_turn stt hasKey backend tts).llm_invoked = false ∧
    (VoiceAgent.process_turn stt hasKey backend tts).tts_invoked = false ∧
    (VoiceAgent.process_turn stt hasKey backend tts).end_success = false ∧
    (VoiceAgent.process_turn stt hasKey backend tts).end_error =
      "No speech detected".toList ∧
    ∀ rest, VoiceAgent.process_turns ((stt, hasKey, backend, tts) :: rest) =
      VoiceAgent.process_turn stt hasKey backend tts ::
        VoiceAgent.process_turns rest := by
  refine ⟨?_, ?_, ?_, ?_, fun rest => rfl⟩ <;>
    (unfold VoiceAgent.process_turn; rw [if_pos h])

/-- Witness for C5 (amended) at a failed transcription result. -/
theorem no_usable_transcript_short_circuits_witness :
    (VoiceAgent.process_turn ⟨false, none, none, some "API Error: 500".toList⟩
        true (.ok "ignored".toList) true).llm_invoked = false ∧
    (VoiceAgent.process_turn ⟨false, none, none, some "API Error: 500".toList⟩
        true (.ok "ignored".toList) true).tts_invoked = false ∧
    (VoiceAgent.process_turn ⟨false, none, none, some "API Error: 500".toList⟩
        true (.ok "ignored".toList) true).end_success = false ∧
    (VoiceAgent.process_turn ⟨false, none, none, some "API Error: 500".toList⟩
        true (.ok "ignored".toList) true).end_error =
      "No speech detected".toList ∧
    ∀ rest, VoiceAgent.process_turns
        ((⟨false, none, none, some "API Error: 500".toList⟩, true,
          .ok "ignored".toList, true) :: rest) =
      VoiceAgent.process_turn ⟨false, none, none, some "API Error: 500".toList⟩
          true (.ok "ignored".toList) true :: VoiceAgent.process_turns rest :=
  no_usable_transcript_short_circuits
    ⟨false, none, none, some "API Error: 500".toList⟩
    true (.ok "ignored".toList) true (Or.inl rfl)

/-- C5 counterexample: a successful transcription whose confidence (0.1)
is far below the configured floor (0.7) is *not* short-circuited: the
reply stage is invoked, synthesis runs, and the turn is recorded as a
success — `_process_turn` never consults any confidence floor. -/
theorem low_confidence_turn_not_short_circuited :
    (1/10 : ℚ) < confidence_threshold_default ∧
    (VoiceAgent.process_turn
        ⟨true, some "hello".toList, some (1/10), none⟩ true
        (.ok "Hi there.".toList) true).llm_invoked = true ∧
    (VoiceAgent.process_turn
        ⟨true, some "hello".toList, some (1/10), none⟩ true
        (.ok "Hi there.".toList) true).tts_invoked = true ∧
    (VoiceAgent.process_turn
        ⟨true, some "hello".toList, some (1/10), none⟩ true
        (.ok "Hi there.".toList) true).end_success = true ∧
    (VoiceAgent.process_turn
        ⟨true, some "hello".toList, some (1/10), none⟩ true
        (.ok "Hi there.".toList) true).end_error = [] := by
  refine ⟨by norm_num [confidence_threshold_default], rfl, rfl, rfl, rfl⟩

/-- C6 amended: when the reply-generation call fails on a turn with a
usable transcript, the deterministic keyword-matched fallback reply is
substituted, synthesis is still invoked with the fallback text, the turn
is not aborted, and the overall turn success is exactly the synthesis
outcome; the turn record carries the fallback as its response and an
empty error — the stage failure itself is not recorded on it. -/
theorem llm_failure_substitutes_fallback (stt : STTResultDict) (tts : Bool)
    (hok : stt.success = true) (ht : stt.final_transcript.getD [] ≠ []) :
    (VoiceAgent.process_turn stt true .failure tts).llm_invoked = true ∧
    (VoiceAgent.process_turn stt true .failure tts).tts_invoked = true ∧
    (VoiceAgent.process_turn stt true .failure tts).tts_input =
      some (generate_fallback_response (stt.final_transcript.getD [])) ∧
    (VoiceAgent.process_turn stt true .failure tts).recorded_response =
      some (generate_fallback_response (stt.final_transcript.getD [])) ∧
    (VoiceAgent.process_turn stt true .failure tts).end_success = tts ∧
    (VoiceAgent.process_turn stt true .failure tts).end_error = [] := by
  unfold VoiceAgent.process_turn
  rw [if_neg (by simp [hok, ht])]
  exact ⟨rfl, rfl, rfl, rfl, rfl, rfl⟩

/-- Witness for C6 (amended): transcript "hello", failing reply stage,
failing synthesis — the fallback greeting is synthesized and the turn
success is the synthesis outcome (false). -/
theorem llm_failure_substitutes_fallback_witness :
    generate_fallback_response "hello".toList =
      "Hello! How can I help you today?".toList ∧
    (VoiceAgent.process_turn ⟨true, some "hello".toList, some (9/10), none⟩
        true .failure false).tts_invoked = true ∧
    (VoiceAgent.process_turn ⟨true, some "hello".toList, some (9/10), none⟩
        true .failure false).tts_input =
      some "Hello! How can I help you today?".toList ∧
    (VoiceAgent.process_turn ⟨true, some "hello".toList, some (9/10), none⟩
        true .failure false).end_success = false ∧
    (VoiceAgent.process_turn ⟨true, some "hello".toList, some (9/10), none⟩
        true .failure false).end_error = [] := by
  have h := llm_failure_substitutes_fallback
    ⟨true, some "hello".toList, some (9/10), none⟩ false rfl (by decide)
  have hfb : generate_fallback_response "hello".toList =
      "Hello! How can I help you today?".toList := by decide
  have h3 := h.2.2.1
  simp only [Option.getD_some] at h3
  exact ⟨hfb, h.2.1, by rw [h3, hfb], h.2.2.2.2.1, h.2.2.2.2.2⟩

/-- C6 counterexample: after a reply-stage failure the turn record is
byte-for-byte the record of a turn whose reply stage *succeeded* with
the fallback text: `error` is empty and `success` is the synthesis
outcome, so no stage failure is recorded on the turn record, contrary to
the claim. -/
theorem llm_failure_not_recorded_on_turn_record :
    VoiceAgent.process_turn ⟨true, some "hello".toList, some (9/10), none⟩
        true .failure true =
      VoiceAgent.process_turn ⟨true, some "hello".toList, some (9/10), none⟩
        true (.ok (generate_fallback_response "hello".toList)) true ∧
    (VoiceAgent.process_turn ⟨true, some "hello".toList, some (9/10), none⟩
        true .failure true).end_error = [] ∧
    (VoiceAgent.process_turn ⟨true, some "hello".toList, some (9/10), none⟩
        true .failure true).end_success = true :=
  ⟨rfl, rfl, rfl⟩

/-- If `dropWhile p` produces a cons, its head fails `p`. -/
theorem dropWhile_eq_cons_head_false {α : Type} (p : α → Bool) :
    ∀ (s : List α) (c : α) (cs : List α),
      List.dropWhile p s = c :: cs → p c = false := by
  intro s
  induction s with
  | nil => intro c cs h; simp [List.dropWhile] at h
  | cons a t ih =>
      intro c cs h
      rw [List.dropWhile_cons] at h
      by_cases hpa : p a
      · rw [if_pos hpa] at h
        exact ih c cs h
      · rw [if_neg hpa] at h
        injection h with h1 h2
        subst h1
        simpa using hpa

/-- Python `str.strip()`: drop whitespace from the front, then from the
back. -/
def pyStrip (s : Str) : Str :=
  List.rdropWhile Char.isWhitespace (List.dropWhile Char.isWhitespace s)

/-- A leading strip survives a trailing strip: the head of the remaining
list is the head of the leading-stripped list, which is not whitespace. -/
theorem dropWhile_rdropWhile_dropWhile (p : Char → Bool) (s : Str) :
    List.dropWhile p (List.rdropWhile p (List.dropWhile p s)) =
      List.rdropWhile p (List.dropWhile p s) := by
  rcases ha : List.dropWhile p s with _ | ⟨c, cs⟩
  · simp [List.rdropWhile]
  · have hc : p c = false := dropWhile_eq_cons_head_false p s c cs ha
    rcases hb : List.rdropWhile p (c :: cs) with _ | ⟨d, ds⟩
    · rfl
    · obtain ⟨t, ht⟩ := List.rdropWhile_prefix p (c :: cs)
      rw [hb] at ht
      have hd : d = c := by
        have := congrArg (fun l => l.head?) ht
        simpa using this
      subst hd
      simp [List.dropWhile_cons, hc]

/-- Stripping is idempotent. -/
theorem pyStrip_idem (s : Str) : pyStrip (pyStrip s) = pyStrip s := by
  unfold pyStrip
  rw [dropWhile_rdropWhile_dropWhile, List.rdropWhile_idempotent]

/-- One alternative of a Deepgram response channel; `.get` with defaults
in the source means missing keys read as `none`. -/
structure DGAlternative where
  transcript : Option Str
  confidence : Option ℚ
deriving DecidableEq, Repr

/-- One channel of a Deepgram response. -/
structure DGChannel where
  alternatives : List DGAlternative
deriving DecidableEq, Repr

/-- The `results` object of a Deepgram response. -/
structure DGResults where
  channels : List DGChannel
deriving DecidableEq, Repr

/-- A Deepgram response as consumed by `STTService._parse_response`
(stt.py lines 85-141): `results` may be absent. -/
structure DGResponse where
  results : Option DGResults
deriving DecidableEq, Repr

/-- The dictionary returned by `_parse_response`: failure paths carry
only `success` and `error`; the success path carries the transcript and
confidence fields (stt.py lines 128-135). -/
structure ParseResult where
  success : Bool
  final_transcript : Str := []
  final_confidence : ℚ := 0
  partial_transcript : Str := []
  partial_confidence : ℚ := 0
  turn_ended : Bool := false
  error : Str := []
deriving DecidableEq, Repr

/-- Embedding of the response parser of stt.py lines 85-141. -/
def STTService.parse_response (result : DGResponse) : ParseResult :=
  match result.results with
  | none => { success := false, error := "Invalid response format".toList }
  | some rs =>
    match rs.channels with
    | [] => { success := false, error := "No audio channels found".toList }
    | ch0 :: _ =>
      match ch0.alternatives with
      | [] =>
          { success := false
            error := "No transcription alternatives found".toList }
      | alt0 :: _ =>
        let transcript := pyStrip (alt0.transcript.getD [])
        let confidence := alt0.confidence.getD 0
        if transcript = [] then
          { success := false, error := "Empty transcription result".toList }
        else
          { success := true
            final_transcript := transcript
            final_confidence := confidence
            partial_transcript := transcript
            partial_confidence := confidence
            turn_ended := true
            error := [] }

/-- C10: the parser never reports success with an unusable transcript —
success implies a non-empty, whitespace-stripped `final_transcript`;
every failure carries a non-empty error string; and in particular a
response whose best alternative strips to the empty string yields
`success = false` with error "Empty transcription result". -/
theorem parse_response_success_iff_usable_transcript (r : DGResponse) :
    ((STTService.parse_response r).success = true →
      (STTService.parse_response r).final_transcript ≠ [] ∧
      pyStrip (STTService.parse_response r).final_transcript =
        (STTService.parse_response r).final_transcript) ∧
    ((STTService.parse_response r).success = false →
      (STTService.parse_response r).error ≠ []) ∧
    (∀ (rs : DGResults) (ch : DGChannel) (chrest : List DGChannel)
        (alt : DGAlternative) (altrest : List DGAlternative),
      r.results = some rs → rs.channels = ch :: chrest →
      ch.alternatives = alt :: altrest →
      pyStrip (alt.transcript.getD []) = [] →
      STTService.parse_response r =
        { success := false,
          error := "Empty transcription result".toList }) := by
  obtain ⟨results⟩ := r
  rcases results with _ | ⟨⟨channels⟩⟩
  · refine ⟨by simp [STTService.parse_response],
      by simp [STTService.parse_response], ?_⟩
    intro rs ch chrest alt altrest hrs
    simp at hrs
  · rcases channels with _ | ⟨⟨alts⟩, chrest0⟩
    · refine ⟨by simp [STTService.parse_response],
        by simp [STTService.parse_response], ?_⟩
      intro rs ch chrest alt altrest hrs hch hal hstrip
      simp only [Option.some.injEq] at hrs
      subst hrs
      simp at hch
    · rcases alts with _ | ⟨⟨tr, conf⟩, altrest0⟩
      · refine ⟨by simp [STTService.parse_response],
          by simp [STTService.parse_response], ?_⟩
        intro rs ch chrest alt altrest hrs hch hal hstrip
        simp only [Option.some.injEq] at hrs
        subst hrs
        simp only [DGResults.mk.injEq, List.cons.injEq] at hch
        obtain ⟨rfl, -⟩ := hch
        simp at hal
      · by_cases hempty : pyStrip (tr.getD []) = []
        · have hp : STTService.parse_response
              ⟨some ⟨⟨⟨tr, conf⟩ :: altrest0⟩ :: chrest0⟩⟩ =
              { success := false,
                error := "Empty transcription result".toList } := by
            simp [STTService.parse_response, hempty]
          refine ⟨?_, ?_, ?_⟩
          · rw [hp]; simp
          · rw [hp]; simp
          · intro rs ch chrest alt altrest hrs hch hal hstrip
            exact hp
        · have hp : STTService.parse_response
              ⟨some ⟨⟨⟨tr, conf⟩ :: altrest0⟩ :: chrest0⟩⟩ =
              { success := true
                final_transcript := pyStrip (tr.getD [])
                final_confidence := conf.getD 0
                partial_transcript := pyStrip (tr.getD [])
                partial_confidence := conf.getD 0
                turn_ended := true
                error := [] } := by
            simp [STTService.parse_response, hempty]
          refine ⟨?_, ?_, ?_⟩
          · rw [hp]
            intro _
            exact ⟨hempty, pyStrip_idem _⟩
          · rw [hp]
            intro h
            simp at h
          · intro rs ch chrest alt altrest hrs hch hal hstrip
            simp only [Option.some.injEq] at hrs
            subst hrs
            simp only [DGResults.mk.injEq, List.cons.injEq] at hch
            obtain ⟨rfl, -⟩ := hch
            simp only [DGChannel.mk.injEq, List.cons.injEq] at hal
            obtain ⟨rfl, -⟩ := hal
            exact absurd hstrip hempty

/-- Witness for C10: a response whose best alternative is whitespace-only
fails with "Empty transcription result", and a response with transcript
" hi " succeeds with the stripped transcript "hi". -/
theorem parse_response_success_iff_usable_transcript_witness :
    STTService.parse_response
        ⟨some ⟨[⟨[⟨some "   ".toList, some (9/10)⟩]⟩]⟩⟩ =
      { success := false, error := "Empty transcription result".toList } ∧
    (STTService.parse_response
        ⟨some ⟨[⟨[⟨some " hi ".toList, some (9/10)⟩]⟩]⟩⟩).success = true ∧
    (STTService.parse_response
          ⟨some ⟨[⟨[⟨some " hi ".toList, some (9/10)⟩]⟩]⟩⟩).final_transcript ≠
        [] ∧
    pyStrip (STTService.parse_response
          ⟨some ⟨[⟨[⟨some " hi ".toList, some (9/10)⟩]⟩]⟩⟩).final_transcript =
      (STTService.parse_response
          ⟨some ⟨[⟨[⟨some " hi ".toList, some (9/10)⟩]⟩]⟩⟩).final_transcript := by
  constructor
  · exact (parse_response_success_iff_usable_transcript
        ⟨some ⟨[⟨[⟨some "   ".toList, some (9/10)⟩]⟩]⟩⟩).2.2
      ⟨[⟨[⟨some "   ".toList, some (9/10)⟩]⟩]⟩
      ⟨[⟨some "   ".toList, some (9/10)⟩]⟩ []
      ⟨some "   ".toList, some (9/10)⟩ [] rfl rfl rfl (by decide)
  · have h := (parse_response_success_iff_usable_transcript
        ⟨some ⟨[⟨[⟨some " hi ".toList, some (9/10)⟩]⟩]⟩⟩).1
    have hs : (STTService.parse_response
        ⟨some ⟨[⟨[⟨some " hi ".toList, some (9/10)⟩]⟩]⟩⟩).success = true := by
      decide
    exact ⟨hs, (h hs).1, (h hs).2⟩
